import Mathlib

/-!
Shallow embedding of the interrupt dispatch layer of `axplat-riscv64-sg2002`
(`src/irq.rs`).

Modelling conventions:
* `usize` values are `Nat`; riscv64 has `usize::BITS = 64`.
* Handlers (Rust function pointers) are opaque numeric identities (`Nat`);
  the two atomic singleton slots (`TIMER_HANDLER`, `IPI_HANDLER`) and the
  device handler table are collected in an explicit state record `KState`.
* Side effects on the PLIC, the `sie` CSR, the SBI firmware and the log are
  recorded as an explicit event trace (`List Event`); the `SpinNoIrq` lock
  around the shared `Plic` handle is traced by `lockAcquire` / `lockRelease`
  events emitted exactly where the Rust guard is created and dropped.
* Rust panics (the `with_cause!` macro's unknown-cause branch and the
  `unreachable!` in `handle`) are modelled by `Except.error` with a
  `PanicKind` tag, so every operation has type `KResult α`.
* The PLIC `claim` result is an input oracle (`claimRes : Option Nat`),
  since the controller's pending state lives outside this layer.
-/

namespace AxPlat

/-- `Interrupt` bit in `scause`: `1 << (usize::BITS - 1)` with 64-bit usize. -/
def INTC_IRQ_BASE : Nat := 1 <<< 63

/-- Supervisor software interrupt in `scause`. -/
def S_SOFT : Nat := INTC_IRQ_BASE + 1

/-- Supervisor timer interrupt in `scause`. -/
def S_TIMER : Nat := INTC_IRQ_BASE + 5

/-- Supervisor external interrupt in `scause`. -/
def S_EXT : Nat := INTC_IRQ_BASE + 9

/-- The maximum number of IRQs (capacity of the device handler table). -/
def MAX_IRQ_COUNT : Nat := 1024

/-- Opaque handler identity (a Rust `IrqHandler` function pointer). -/
abbrev Handler := Nat

/-- The mutable state of the dispatch layer: the two atomic singleton slots
(`AtomicPtr`, null = `none`) and the device handler table, modelled as an
association list from IRQ number to handler. -/
structure KState where
  timerHandler : Option Handler
  ipiHandler : Option Handler
  table : List (Nat × Handler)
  deriving Repr, DecidableEq

/-- Observable side effects of the dispatch layer: PLIC register operations,
the PLIC spinlock, `sie` CSR updates, handler invocations, SBI IPI sends and
warning diagnostics. -/
inductive Event where
  | lockAcquire
  | lockRelease
  | plicSetPriority (irq prio : Nat)
  | plicEnable (irq ctx : Nat)
  | plicDisable (irq ctx : Nat)
  | plicClaim (ctx : Nat) (res : Option Nat)
  | plicComplete (ctx irq : Nat)
  | invokeDevice (irq h : Nat)
  | invokeTimer (h : Nat)
  | invokeIpi (h : Nat)
  | sieSetTimer
  | sieClearTimer
  | sbiSendIpi (mask base : Nat)
  | warn
  deriving Repr, DecidableEq

/-- The two distinct abort sites of the layer: the `with_cause!` macro's
unknown-CPU-cause branch, and the `unreachable!` in `handle`'s device arm. -/
inductive PanicKind where
  | unknownCause (c : Nat)
  | deviceUnreachable
  deriving Repr, DecidableEq

/-- Result of an operation: either a panic, or a value together with the new
state and the emitted event trace. -/
abbrev KResult (α : Type) := Except PanicKind (α × KState × List Event)

/-- Per-hart PLIC context: `(hart_id + 1) * 2` (hart 0 has no S-mode context,
so every hart is offset by one; each hart owns an M- and an S-context pair). -/
def this_context (hart_id : Nat) : Nat := (hart_id + 1) * 2

/-- Truncation performed by `irq as u32` before `NonZeroU32::new`. -/
def u32 (n : Nat) : Nat := n % (2 ^ 32)

/-- Modelled from the spec: lookup in the fixed-capacity (1024) device
handler table (`axplat::irq::HandlerTable`, a dependency whose code is not in
this repository). Spec 4.4: a mapping from IRQ number to handler with
capacity `MAX_IRQ_COUNT`; out-of-capacity indices are unmapped. -/
def tableLookup (t : List (Nat × Handler)) (irq : Nat) : Option Handler :=
  if irq < MAX_IRQ_COUNT then (t.find? (fun p => p.1 == irq)).map (·.2) else none

/-- Modelled from the spec: `HandlerTable::register_handler`. Spec 4.4:
succeeds only if `irq` is currently unmapped and within capacity; on failure
no change occurs. Returns the success flag and the new table. -/
def register_handler (t : List (Nat × Handler)) (irq : Nat) (h : Handler) :
    Bool × List (Nat × Handler) :=
  if irq < MAX_IRQ_COUNT then
    match tableLookup t irq with
    | none => (true, (irq, h) :: t)
    | some _ => (false, t)
  else (false, t)

/-- Removal of an entry from the association-list table. -/
def tableRemove (t : List (Nat × Handler)) (irq : Nat) : List (Nat × Handler) :=
  t.filter (fun p => !(p.1 == irq))

/-- Modelled from the spec: `HandlerTable::unregister_handler`. Spec 4.4:
removes and returns the mapping if present, else none. -/
def unregister_handler (t : List (Nat × Handler)) (irq : Nat) :
    Option Handler × List (Nat × Handler) :=
  match tableLookup t irq with
  | some h => (some h, tableRemove t irq)
  | none => (none, t)

/-- Modelled from the spec: `HandlerTable::handle` (dispatch). Spec 4.4: if
mapped, invokes the handler; if unmapped, a no-op. -/
def dispatchEvents (t : List (Nat × Handler)) (irq : Nat) : List Event :=
  match tableLookup t irq with
  | some h => [.invokeDevice irq h]
  | none => []

/-- `IrqIfImpl::set_enable`. The `with_cause!` macro matches `S_TIMER`,
`S_SOFT`, `S_EXT` first; otherwise a clear high bit selects the device arm
and a set high bit is an unknown CPU cause (Rust panic). The device arm
converts `irq as u32` through `NonZeroU32::new` (silently returning on 0),
then under the PLIC lock sets priority 6 and enables, or disables, the line
for this hart's context. -/
def set_enable (hart : Nat) (st : KState) (irq : Nat) (enabled : Bool) :
    KResult Unit :=
  if irq = S_TIMER then
    .ok ((), st, [if enabled then .sieSetTimer else .sieClearTimer])
  else if irq = S_SOFT then
    .ok ((), st, [])
  else if irq = S_EXT then
    .ok ((), st, [])
  else if Nat.land irq INTC_IRQ_BASE = 0 then
    let t := u32 irq
    if t = 0 then
      .ok ((), st, [])
    else if enabled then
      .ok ((), st, [.lockAcquire, .plicSetPriority t 6,
                    .plicEnable t (this_context hart), .lockRelease])
    else
      .ok ((), st, [.lockAcquire, .plicDisable t (this_context hart), .lockRelease])
  else
    .error (.unknownCause irq)

/-- `IrqIfImpl::register`. Timer and IPI slots install via compare-exchange
(succeeds only from empty, no side effect on failure); `S_EXT` warns and
fails; the device arm registers in the table and, on success, calls
`set_enable(irq, true)`. -/
def register (hart : Nat) (st : KState) (irq : Nat) (handler : Handler) :
    KResult Bool :=
  if irq = S_TIMER then
    match st.timerHandler with
    | none => .ok (true, { st with timerHandler := some handler }, [])
    | some _ => .ok (false, st, [])
  else if irq = S_SOFT then
    match st.ipiHandler with
    | none => .ok (true, { st with ipiHandler := some handler }, [])
    | some _ => .ok (false, st, [])
  else if irq = S_EXT then
    .ok (false, st, [.warn])
  else if Nat.land irq INTC_IRQ_BASE = 0 then
    match register_handler st.table irq handler with
    | (true, t') =>
      match set_enable hart { st with table := t' } irq true with
      | .ok (_, st', evs) => .ok (true, st', evs)
      | .error e => .error e
    | (false, _) => .ok (false, st, [.warn])
  else
    .error (.unknownCause irq)

/-- `IrqIfImpl::unregister`. Timer and IPI slots swap to null and return the
prior value if non-null; `S_EXT` warns and returns none; the device arm
removes from the table and, if a handler was removed, calls
`set_enable(irq, false)`. -/
def unregister (hart : Nat) (st : KState) (irq : Nat) :
    KResult (Option Handler) :=
  if irq = S_TIMER then
    match st.timerHandler with
    | some h => .ok (some h, { st with timerHandler := none }, [])
    | none => .ok (none, st, [])
  else if irq = S_SOFT then
    match st.ipiHandler with
    | some h => .ok (some h, { st with ipiHandler := none }, [])
    | none => .ok (none, st, [])
  else if irq = S_EXT then
    .ok (none, st, [.warn])
  else if Nat.land irq INTC_IRQ_BASE = 0 then
    match unregister_handler st.table irq with
    | (some h, t') =>
      match set_enable hart { st with table := t' } irq false with
      | .ok (_, st', evs) => .ok (some h, st', evs)
      | .error e => .error e
    | (none, _) => .ok (none, st, [])
  else
    .error (.unknownCause irq)

/-- `IrqIfImpl::handle`. Timer and IPI causes invoke the slot handler if
present and return `some cause`; `S_EXT` takes the PLIC lock, claims for this
hart's context (the guard is dropped and the lock released on the early
`return None` of a spurious claim), dispatches the device table handler,
completes with the same context and irq, releases the lock and returns the
claimed irq; a device-side number reaching `handle` is `unreachable!`. -/
def handle (hart : Nat) (claimRes : Option Nat) (st : KState) (irq : Nat) :
    KResult (Option Nat) :=
  if irq = S_TIMER then
    .ok (some irq, st,
         match st.timerHandler with
         | some h => [.invokeTimer h]
         | none => [])
  else if irq = S_SOFT then
    .ok (some irq, st,
         match st.ipiHandler with
         | some h => [.invokeIpi h]
         | none => [])
  else if irq = S_EXT then
    match claimRes with
    | none =>
      .ok (none, st, [.lockAcquire, .plicClaim (this_context hart) none,
                      .lockRelease])
    | some n =>
      .ok (some n, st,
           [.lockAcquire, .plicClaim (this_context hart) (some n)]
             ++ dispatchEvents st.table n
             ++ [.plicComplete (this_context hart) n, .lockRelease])
  else if Nat.land irq INTC_IRQ_BASE = 0 then
    .error .deviceUnreachable
  else
    .error (.unknownCause irq)

/-- `axplat::irq::IpiTarget`. -/
inductive IpiTarget where
  | current (cpu_id : Nat)
  | other (cpu_id : Nat)
  | allExceptCurrent (cpu_id cpu_num : Nat)
  deriving Repr, DecidableEq

/-- The `for i in 0..cpu_num` loop body of the all-except-current arm of
`send_ipi`: skip the current hart, otherwise issue a single-bit-mask SBI send
and log a warning if the firmware call fails (`fail i`), continuing with the
remaining harts either way. -/
def sendLoopEvents (fail : Nat → Bool) (cpu_id : Nat) : List Nat → List Event
  | [] => []
  | i :: rest =>
    (if i = cpu_id then []
     else [Event.sbiSendIpi (1 <<< i) 0] ++ (if fail i then [Event.warn] else []))
      ++ sendLoopEvents fail cpu_id rest

/-- `IrqIfImpl::send_ipi`. `fail` is an oracle saying which per-hart firmware
sends return an error (`SbiRet::is_err`); failures are logged, never aborted
on. The `_irq_num` argument is unused by the source. -/
def send_ipi (fail : Nat → Bool) (_irq_num : Nat) (target : IpiTarget) :
    List Event :=
  match target with
  | .current cpu_id =>
    [Event.sbiSendIpi (1 <<< cpu_id) 0] ++ (if fail cpu_id then [Event.warn] else [])
  | .other cpu_id =>
    [Event.sbiSendIpi (1 <<< cpu_id) 0] ++ (if fail cpu_id then [Event.warn] else [])
  | .allExceptCurrent cpu_id cpu_num =>
    sendLoopEvents fail cpu_id (List.range cpu_num)

/-- Value extractor for `KResult` (with a default for the panic case). -/
def exVal {α : Type} (d : α) : KResult α → α
  | .ok (v, _, _) => v
  | .error _ => d

/-- Event-trace extractor for `KResult`. -/
def exEvents {α : Type} : KResult α → List Event
  | .ok (_, _, evs) => evs
  | .error _ => []

/-- State extractor for `KResult` (with a default for the panic case). -/
def exState {α : Type} (d : KState) : KResult α → KState
  | .ok (_, st, _) => st
  | .error _ => d

/-- Did the operation complete without a panic? -/
def isOk {α : Type} : KResult α → Bool
  | .ok _ => true
  | .error _ => false

/-- Did the operation abort with the classifier's unknown-cause panic? -/
def isUnknownPanic {α : Type} : KResult α → Bool
  | .error (.unknownCause _) => true
  | _ => false

/-- Recognizer for PLIC complete events. -/
def isCompleteEv : Event → Bool
  | .plicComplete _ _ => true
  | _ => false

/-- Recognizer for device-handler invocation events. -/
def isInvokeEv : Event → Bool
  | .invokeDevice _ _ => true
  | _ => false

/-- Recognizer for PLIC enable events. -/
def isEnableEv : Event → Bool
  | .plicEnable _ _ => true
  | _ => false

/-- Recognizer for SBI IPI send events. -/
def isSendEv : Event → Bool
  | .sbiSendIpi _ _ => true
  | _ => false

/-- Scans an event trace keeping the spinlock depth `d`; `true` iff some
device-handler invocation happens at positive lock depth. -/
def handlerUnderLock (d : Nat) : List Event → Bool
  | [] => false
  | .lockAcquire :: rest => handlerUnderLock (d + 1) rest
  | .lockRelease :: rest => handlerUnderLock (d - 1) rest
  | .invokeDevice _ _ :: rest => (0 < d) || handlerUnderLock d rest
  | _ :: rest => handlerUnderLock d rest

instance {ε α : Type} [DecidableEq ε] [DecidableEq α] : DecidableEq (Except ε α)
  | .ok a, .ok b =>
    if h : a = b then .isTrue (by rw [h]) else .isFalse (by simp [h])
  | .error a, .error b =>
    if h : a = b then .isTrue (by rw [h]) else .isFalse (by simp [h])
  | .ok _, .error _ => .isFalse (by simp)
  | .error _, .ok _ => .isFalse (by simp)

/-! Characterization lemmas for the `with_cause!` arms of each operation. -/

lemma ne_sTimer_of_bitClear {n : Nat} (h : Nat.land n INTC_IRQ_BASE = 0) :
    n ≠ S_TIMER := by
  rintro rfl
  exact absurd h (by decide)

lemma ne_sSoft_of_bitClear {n : Nat} (h : Nat.land n INTC_IRQ_BASE = 0) :
    n ≠ S_SOFT := by
  rintro rfl
  exact absurd h (by decide)

lemma ne_sExt_of_bitClear {n : Nat} (h : Nat.land n INTC_IRQ_BASE = 0) :
    n ≠ S_EXT := by
  rintro rfl
  exact absurd h (by decide)

lemma tableLookup_lt {t : List (Nat × Handler)} {n : Nat} {h : Handler}
    (hlk : tableLookup t n = some h) : n < MAX_IRQ_COUNT := by
  by_contra hge
  simp [tableLookup, hge] at hlk

lemma set_enable_device (hart : Nat) (st : KState) {n : Nat} (en : Bool)
    (hbit : Nat.land n INTC_IRQ_BASE = 0) :
    set_enable hart st n en = .ok ((), st,
      if u32 n = 0 then []
      else if en then
        [.lockAcquire, .plicSetPriority (u32 n) 6,
         .plicEnable (u32 n) (this_context hart), .lockRelease]
      else
        [.lockAcquire, .plicDisable (u32 n) (this_context hart), .lockRelease]) := by
  simp only [set_enable]
  rw [if_neg (ne_sTimer_of_bitClear hbit), if_neg (ne_sSoft_of_bitClear hbit),
      if_neg (ne_sExt_of_bitClear hbit), if_pos hbit]
  split_ifs <;> rfl

lemma set_enable_unknown (hart : Nat) (st : KState) {n : Nat} (en : Bool)
    (h1 : n ≠ S_TIMER) (h2 : n ≠ S_SOFT) (h3 : n ≠ S_EXT)
    (hbit : Nat.land n INTC_IRQ_BASE ≠ 0) :
    set_enable hart st n en = .error (.unknownCause n) := by
  simp only [set_enable]
  rw [if_neg h1, if_neg h2, if_neg h3, if_neg hbit]

lemma register_sTimer (hart : Nat) (st : KState) (h : Handler) :
    register hart st S_TIMER h =
      match st.timerHandler with
      | none => .ok (true, { st with timerHandler := some h }, [])
      | some _ => .ok (false, st, []) := rfl

lemma register_sSoft (hart : Nat) (st : KState) (h : Handler) :
    register hart st S_SOFT h =
      match st.ipiHandler with
      | none => .ok (true, { st with ipiHandler := some h }, [])
      | some _ => .ok (false, st, []) := rfl

lemma register_device (hart : Nat) (st : KState) {n : Nat} (h : Handler)
    (hbit : Nat.land n INTC_IRQ_BASE = 0) :
    register hart st n h =
      match register_handler st.table n h with
      | (true, t') =>
        match set_enable hart { st with table := t' } n true with
        | .ok (_, st', evs) => .ok (true, st', evs)
        | .error e => .error e
      | (false, _) => .ok (false, st, [.warn]) := by
  simp only [register]
  rw [if_neg (ne_sTimer_of_bitClear hbit), if_neg (ne_sSoft_of_bitClear hbit),
      if_neg (ne_sExt_of_bitClear hbit), if_pos hbit]

lemma register_unknown (hart : Nat) (st : KState) {n : Nat} (h : Handler)
    (h1 : n ≠ S_TIMER) (h2 : n ≠ S_SOFT) (h3 : n ≠ S_EXT)
    (hbit : Nat.land n INTC_IRQ_BASE ≠ 0) :
    register hart st n h = .error (.unknownCause n) := by
  simp only [register]
  rw [if_neg h1, if_neg h2, if_neg h3, if_neg hbit]

lemma unregister_sTimer (hart : Nat) (st : KState) :
    unregister hart st S_TIMER =
      match st.timerHandler with
      | some h => .ok (some h, { st with timerHandler := none }, [])
      | none => .ok (none, st, []) := rfl

lemma unregister_sSoft (hart : Nat) (st : KState) :
    unregister hart st S_SOFT =
      match st.ipiHandler with
      | some h => .ok (some h, { st with ipiHandler := none }, [])
      | none => .ok (none, st, []) := rfl

lemma unregister_device (hart : Nat) (st : KState) {n : Nat}
    (hbit : Nat.land n INTC_IRQ_BASE = 0) :
    unregister hart st n =
      match unregister_handler st.table n with
      | (some h, t') =>
        match set_enable hart { st with table := t' } n false with
        | .ok (_, st', evs) => .ok (some h, st', evs)
        | .error e => .error e
      | (none, _) => .ok (none, st, []) := by
  simp only [unregister]
  rw [if_neg (ne_sTimer_of_bitClear hbit), if_neg (ne_sSoft_of_bitClear hbit),
      if_neg (ne_sExt_of_bitClear hbit), if_pos hbit]

lemma unregister_unknown (hart : Nat) (st : KState) {n : Nat}
    (h1 : n ≠ S_TIMER) (h2 : n ≠ S_SOFT) (h3 : n ≠ S_EXT)
    (hbit : Nat.land n INTC_IRQ_BASE ≠ 0) :
    unregister hart st n = .error (.unknownCause n) := by
  simp only [unregister]
  rw [if_neg h1, if_neg h2, if_neg h3, if_neg hbit]

lemma handle_sTimer (hart : Nat) (cr : Option Nat) (st : KState) :
    handle hart cr st S_TIMER =
      .ok (some S_TIMER, st,
        match st.timerHandler with
        | some h => [.invokeTimer h]
        | none => []) := rfl

lemma handle_sSoft (hart : Nat) (cr : Option Nat) (st : KState) :
    handle hart cr st S_SOFT =
      .ok (some S_SOFT, st,
        match st.ipiHandler with
        | some h => [.invokeIpi h]
        | none => []) := rfl

lemma handle_sExt_none (hart : Nat) (st : KState) :
    handle hart none st S_EXT =
      .ok (none, st,
        [.lockAcquire, .plicClaim (this_context hart) none, .lockRelease]) := rfl

lemma handle_sExt_some (hart n : Nat) (st : KState) :
    handle hart (some n) st S_EXT =
      .ok (some n, st,
        [.lockAcquire, .plicClaim (this_context hart) (some n)]
          ++ dispatchEvents st.table n
          ++ [.plicComplete (this_context hart) n, .lockRelease]) := rfl

lemma handle_device (hart : Nat) (cr : Option Nat) (st : KState) {n : Nat}
    (hbit : Nat.land n INTC_IRQ_BASE = 0) :
    handle hart cr st n = .error .deviceUnreachable := by
  simp only [handle]
  rw [if_neg (ne_sTimer_of_bitClear hbit), if_neg (ne_sSoft_of_bitClear hbit),
      if_neg (ne_sExt_of_bitClear hbit), if_pos hbit]

lemma handle_unknown (hart : Nat) (cr : Option Nat) (st : KState) {n : Nat}
    (h1 : n ≠ S_TIMER) (h2 : n ≠ S_SOFT) (h3 : n ≠ S_EXT)
    (hbit : Nat.land n INTC_IRQ_BASE ≠ 0) :
    handle hart cr st n = .error (.unknownCause n) := by
  simp only [handle]
  rw [if_neg h1, if_neg h2, if_neg h3, if_neg hbit]

/-! Claim theorems. -/

/-- C8: the per-hart controller context is `context(hart_id) = 2 * (hart_id + 1)`
with no failure mode; it is injective on hart ids (distinct hart ids yield
distinct contexts) and no hart id maps to context 0. -/
theorem C8_context_addressing (h1 h2 : Nat)
    (heq : this_context h1 = this_context h2) :
    h1 = h2 ∧ this_context h1 ≠ 0 ∧ this_context h1 = 2 * (h1 + 1) := by
  unfold this_context at heq ⊢
  omega

theorem C8_context_addressing_witness :
    (0 : Nat) = 0 ∧ this_context 0 ≠ 0 ∧ this_context 0 = 2 * (0 + 1) :=
  C8_context_addressing 0 0 rfl

/-- C9: registering a handler directly against the external sentinel cause
`S_EXT` always returns false and installs nothing (the state is unchanged),
unregistering against `S_EXT` always returns none and removes nothing; both
emit a warning diagnostic rather than aborting (the result is `ok`, not a
panic). -/
theorem C9_sext_misuse_rejected (hart : Nat) (h : Handler) (st : KState) :
    register hart st S_EXT h = .ok (false, st, [.warn]) ∧
    unregister hart st S_EXT = .ok (none, st, [.warn]) :=
  ⟨rfl, rfl⟩

/-- C5: for each singleton slot (Timer via `S_TIMER`, IPI via `S_SOFT`): a
second register while the slot holds `h0` returns false and leaves `h0` in
place and still invoked by `handle`; unregister on an occupied slot empties
it and returns the installed handler; unregister on an empty slot returns
none and changes nothing. -/
theorem C5_singleton_slots (hart h0 h2 : Nat) (st st2 : KState)
    (cr : Option Nat)
    (hT : st.timerHandler = some h0) (hI : st.ipiHandler = some h0)
    (hT2 : st2.timerHandler = none) (hI2 : st2.ipiHandler = none) :
    register hart st S_TIMER h2 = .ok (false, st, []) ∧
    register hart st S_SOFT h2 = .ok (false, st, []) ∧
    handle hart cr st S_TIMER = .ok (some S_TIMER, st, [.invokeTimer h0]) ∧
    handle hart cr st S_SOFT = .ok (some S_SOFT, st, [.invokeIpi h0]) ∧
    unregister hart st S_TIMER
      = .ok (some h0, { st with timerHandler := none }, []) ∧
    unregister hart st S_SOFT
      = .ok (some h0, { st with ipiHandler := none }, []) ∧
    unregister hart st2 S_TIMER = .ok (none, st2, []) ∧
    unregister hart st2 S_SOFT = .ok (none, st2, []) := by
  refine ⟨?_, ?_, ?_, ?_, ?_, ?_, ?_, ?_⟩
  · rw [register_sTimer, hT]
  · rw [register_sSoft, hI]
  · rw [handle_sTimer, hT]
  · rw [handle_sSoft, hI]
  · rw [unregister_sTimer, hT]
  · rw [unregister_sSoft, hI]
  · rw [unregister_sTimer, hT2]
  · rw [unregister_sSoft, hI2]

theorem C5_singleton_slots_witness :
    register 0 ⟨some 7, some 7, []⟩ S_TIMER 9
      = .ok (false, ⟨some 7, some 7, []⟩, []) ∧
    register 0 ⟨some 7, some 7, []⟩ S_SOFT 9
      = .ok (false, ⟨some 7, some 7, []⟩, []) ∧
    handle 0 none ⟨some 7, some 7, []⟩ S_TIMER
      = .ok (some S_TIMER, ⟨some 7, some 7, []⟩, [.invokeTimer 7]) ∧
    handle 0 none ⟨some 7, some 7, []⟩ S_SOFT
      = .ok (some S_SOFT, ⟨some 7, some 7, []⟩, [.invokeIpi 7]) ∧
    unregister 0 ⟨some 7, some 7, []⟩ S_TIMER
      = .ok (some 7, ⟨none, some 7, []⟩, []) ∧
    unregister 0 ⟨some 7, some 7, []⟩ S_SOFT
      = .ok (some 7, ⟨some 7, none, []⟩, []) ∧
    unregister 0 ⟨none, none, []⟩ S_TIMER
      = .ok (none, ⟨none, none, []⟩, []) ∧
    unregister 0 ⟨none, none, []⟩ S_SOFT
      = .ok (none, ⟨none, none, []⟩, []) :=
  C5_singleton_slots 0 7 9 ⟨some 7, some 7, []⟩ ⟨none, none, []⟩ none
    rfl rfl rfl rfl

/-- C3 counterexample: the claim says `handle` returns none for a CPU-side
interrupt, but at the timer cause the code returns `Some(irq)`, i.e. the
cause word itself. -/
theorem C3_timer_returns_cause_cex :
    handle 0 none ⟨none, none, []⟩ S_TIMER
      = .ok (some S_TIMER, ⟨none, none, []⟩, []) ∧
    (some S_TIMER : Option Nat) ≠ none :=
  ⟨rfl, by simp⟩

/-- C3 amended: `handle` returns the concrete device IRQ number for a
resolved external event, returns `some cause` (the cause word itself, not
none) for the CPU-side timer and software/IPI causes, and returns none for a
spurious external event, in which case no device handler is invoked and no
panic occurs. -/
theorem C3_handle_return_value (hart n : Nat) (st : KState) (cr : Option Nat) :
    exVal none (handle hart cr st S_TIMER) = some S_TIMER ∧
    exVal none (handle hart cr st S_SOFT) = some S_SOFT ∧
    isOk (handle hart cr st S_TIMER) = true ∧
    isOk (handle hart cr st S_SOFT) = true ∧
    exVal none (handle hart (some n) st S_EXT) = some n ∧
    handle hart none st S_EXT
      = .ok (none, st,
          [.lockAcquire, .plicClaim (this_context hart) none, .lockRelease]) ∧
    (exEvents (handle hart none st S_EXT)).filter isInvokeEv = [] := by
  refine ⟨?_, ?_, ?_, ?_, ?_, handle_sExt_none hart st, ?_⟩
  · rw [handle_sTimer]; rfl
  · rw [handle_sSoft]; rfl
  · rw [handle_sTimer]; rfl
  · rw [handle_sSoft]; rfl
  · rw [handle_sExt_some]; rfl
  · rw [handle_sExt_none]; rfl

/-- C1: for `handle` at cause `S_EXT`: if the controller's claim for the
current hart's context returns irq `n`, then the result is `some n`, exactly
one `complete` is issued, it carries the same `n` and the same context, and
the device-table handler for `n` (when one is mapped) runs before that
`complete`, with nothing invoked after it; if the claim returns nothing, no
handler is invoked and no `complete` is issued. -/
theorem C1_claim_complete_pairing (hart n : Nat) (st : KState) :
    exVal none (handle hart (some n) st S_EXT) = some n ∧
    (exEvents (handle hart (some n) st S_EXT)).filter isCompleteEv
      = [.plicComplete (this_context hart) n] ∧
    (∀ h, tableLookup st.table n = some h →
      ∃ pre suf,
        exEvents (handle hart (some n) st S_EXT)
          = pre ++ Event.plicComplete (this_context hart) n :: suf ∧
        Event.invokeDevice n h ∈ pre ∧
        suf.filter isInvokeEv = []) ∧
    exVal none (handle hart none st S_EXT) = none ∧
    (exEvents (handle hart none st S_EXT)).filter isInvokeEv = [] ∧
    (exEvents (handle hart none st S_EXT)).filter isCompleteEv = [] := by
  refine ⟨?_, ?_, ?_, ?_, ?_, ?_⟩
  · rw [handle_sExt_some]; rfl
  · rw [handle_sExt_some]
    cases hlk : tableLookup st.table n <;>
      simp only [exEvents, dispatchEvents, hlk] <;> rfl
  · intro h hlk
    refine ⟨[.lockAcquire, .plicClaim (this_context hart) (some n),
             .invokeDevice n h], [.lockRelease], ?_, by simp, rfl⟩
    rw [handle_sExt_some]
    simp only [exEvents, dispatchEvents, hlk]
    rfl
  · rw [handle_sExt_none]; rfl
  · rw [handle_sExt_none]; rfl
  · rw [handle_sExt_none]; rfl

theorem C1_claim_complete_pairing_witness :
    exVal none (handle 0 (some 5) ⟨none, none, [(5, 7)]⟩ S_EXT) = some 5 ∧
    (exEvents (handle 0 (some 5) ⟨none, none, [(5, 7)]⟩ S_EXT)).filter
        isCompleteEv = [.plicComplete 2 5] ∧
    exVal none (handle 0 none ⟨none, none, [(5, 7)]⟩ S_EXT) = none ∧
    (exEvents (handle 0 none ⟨none, none, [(5, 7)]⟩ S_EXT)).filter
        isCompleteEv = [] :=
  ⟨(C1_claim_complete_pairing 0 5 ⟨none, none, [(5, 7)]⟩).1,
   (C1_claim_complete_pairing 0 5 ⟨none, none, [(5, 7)]⟩).2.1,
   (C1_claim_complete_pairing 0 5 ⟨none, none, [(5, 7)]⟩).2.2.2.1,
   (C1_claim_complete_pairing 0 5 ⟨none, none, [(5, 7)]⟩).2.2.2.2.2⟩

/-- C2 counterexample: the claim says the device handler invocation between
claim and complete never executes while the controller lock is held, but on
a concrete external dispatch (claim returns irq 5, handler 7 registered for
it) the handler invocation event occurs at positive spinlock depth: the
guard taken before `claim` lives until `handle` returns. -/
theorem C2_handler_runs_under_lock_cex :
    handlerUnderLock 0
      (exEvents (handle 0 (some 5) ⟨none, none, [(5, 7)]⟩ S_EXT)) = true := by
  decide

/-- C2 amended: during external-interrupt handling the controller lock is
acquired once before `claim` and held continuously across the device handler
invocation and the `complete`; it is released only when `handle` returns, so
the handler does run while the lock is held. -/
theorem C2_lock_held_across_dispatch (hart n : Nat) (st : KState) :
    ∃ mid,
      handle hart (some n) st S_EXT
        = .ok (some n, st, Event.lockAcquire :: mid ++ [Event.lockRelease]) ∧
      (∀ e ∈ mid, e ≠ Event.lockAcquire ∧ e ≠ Event.lockRelease) ∧
      (∀ h, tableLookup st.table n = some h → Event.invokeDevice n h ∈ mid) := by
  refine ⟨[.plicClaim (this_context hart) (some n)]
            ++ dispatchEvents st.table n
            ++ [.plicComplete (this_context hart) n], ?_, ?_, ?_⟩
  · rw [handle_sExt_some]
    simp
  · cases hlk : tableLookup st.table n <;>
      simp [dispatchEvents, hlk]
  · intro h hlk
    simp [dispatchEvents, hlk]

theorem C2_lock_held_across_dispatch_witness :
    ∃ mid,
      handle 0 (some 5) ⟨none, none, [(5, 7)]⟩ S_EXT
        = .ok (some 5, ⟨none, none, [(5, 7)]⟩,
            Event.lockAcquire :: mid ++ [Event.lockRelease]) ∧
      (∀ e ∈ mid, e ≠ Event.lockAcquire ∧ e ≠ Event.lockRelease) ∧
      (∀ h, tableLookup [(5, 7)] 5 = some h → Event.invokeDevice 5 h ∈ mid) :=
  C2_lock_held_across_dispatch 0 5 ⟨none, none, [(5, 7)]⟩

/-- C10: for every usize input with the high bit clear (a device-side IRQ
number, including 0 and values at or above `MAX_IRQ_COUNT`), `handle` panics
unconditionally (the `unreachable!` in its device arm), while `set_enable`,
`register` and `unregister` accept such inputs without panicking. -/
theorem C10_handle_device_panics (hart c h : Nat) (st : KState)
    (cr : Option Nat) (en : Bool)
    (_hword : c < 2 ^ 64) (hbit : Nat.land c INTC_IRQ_BASE = 0) :
    handle hart cr st c = .error .deviceUnreachable ∧
    isOk (set_enable hart st c en) = true ∧
    isOk (register hart st c h) = true ∧
    isOk (unregister hart st c) = true := by
  refine ⟨handle_device hart cr st hbit, ?_, ?_, ?_⟩
  · rw [set_enable_device hart st en hbit]
    rfl
  · rw [register_device hart st h hbit]
    split
    · rw [set_enable_device hart _ true hbit]
      rfl
    · rfl
  · rw [unregister_device hart st hbit]
    split
    · rw [set_enable_device hart _ false hbit]
      rfl
    · rfl

theorem C10_handle_device_panics_witness :
    (0 : Nat) < 2 ^ 64 ∧
    handle 0 none ⟨none, none, []⟩ 0 = .error .deviceUnreachable ∧
    isOk (set_enable 0 ⟨none, none, []⟩ 0 true) = true ∧
    isOk (register 0 ⟨none, none, []⟩ 0 7) = true ∧
    isOk (unregister 0 ⟨none, none, []⟩ 0) = true :=
  ⟨by decide,
   C10_handle_device_panics 0 0 7 ⟨none, none, []⟩ none true
     (by decide) (by decide)⟩

/-- C4 counterexample: the claim says a successful `register(n, h)` for a
device-side irq additionally enables `n` at the controller, but registering
irq 0 succeeds (0 is unmapped and within the table's capacity) while the
controller enable is silently skipped: `NonZeroU32::new(0)` fails, so
`set_enable` returns early and no PLIC enable (nor priority) event is
emitted. -/
theorem C4_register_zero_no_enable_cex :
    exVal false (register 0 ⟨none, none, []⟩ 0 77) = true ∧
    (exEvents (register 0 ⟨none, none, []⟩ 0 77)).filter isEnableEv = [] ∧
    exEvents (register 0 ⟨none, none, []⟩ 0 77) = [] := by
  decide

/-- C4 amended: for a device-side irq `n` (high bit clear) with `n ≠ 0`:
`register(n, h)` returns true iff `n` is unmapped and within the table's
capacity, and on success installs the mapping and enables `n` at the
controller for the calling hart's context with fixed non-zero priority 6,
while on failure nothing changes (only a warning is logged); `unregister(n)`
removes and returns the installed handler and disables `n` for the calling
hart's context if `n` was mapped, and returns none with no effect otherwise.
For `n = 0` the table operations behave the same but no controller
enable/disable is issued (the `NonZeroU32` conversion fails silently). -/
theorem C4_device_register_unregister (hart n h : Nat) (st : KState)
    (hbit : Nat.land n INTC_IRQ_BASE = 0) :
    (tableLookup st.table n = none → n < MAX_IRQ_COUNT → n ≠ 0 →
      register hart st n h
        = .ok (true, { st with table := (n, h) :: st.table },
            [.lockAcquire, .plicSetPriority n 6,
             .plicEnable n (this_context hart), .lockRelease])) ∧
    (MAX_IRQ_COUNT ≤ n →
      register hart st n h = .ok (false, st, [.warn])) ∧
    (∀ h0, tableLookup st.table n = some h0 →
      register hart st n h = .ok (false, st, [.warn])) ∧
    (tableLookup st.table 0 = none →
      register hart st 0 h
        = .ok (true, { st with table := (0, h) :: st.table }, [])) ∧
    (∀ h0, tableLookup st.table n = some h0 → n ≠ 0 →
      unregister hart st n
        = .ok (some h0, { st with table := tableRemove st.table n },
            [.lockAcquire, .plicDisable n (this_context hart), .lockRelease])) ∧
    (∀ h0, tableLookup st.table 0 = some h0 →
      unregister hart st 0
        = .ok (some h0, { st with table := tableRemove st.table 0 }, [])) ∧
    (tableLookup st.table n = none →
      unregister hart st n = .ok (none, st, [])) := by
  have hb0 : Nat.land 0 INTC_IRQ_BASE = 0 := by decide
  refine ⟨?_, ?_, ?_, ?_, ?_, ?_, ?_⟩
  · intro hlk hcap hnz
    have hu : u32 n = n := Nat.mod_eq_of_lt (lt_trans hcap (by decide))
    rw [register_device hart st h hbit]
    simp only [register_handler, hcap, if_true, hlk]
    rw [set_enable_device hart _ true hbit]
    simp [hu, hnz]
  · intro hge
    rw [register_device hart st h hbit]
    simp only [register_handler, if_neg (Nat.not_lt.mpr hge)]
  · intro h0 hlk
    rw [register_device hart st h hbit]
    have hcap := tableLookup_lt hlk
    simp only [register_handler, hcap, if_true, hlk]
  · intro hlk
    rw [register_device hart st h hb0]
    simp [register_handler, hlk, set_enable_device hart _ true hb0, u32,
          MAX_IRQ_COUNT]
  · intro h0 hlk hnz
    have hcap := tableLookup_lt hlk
    have hu : u32 n = n := Nat.mod_eq_of_lt (lt_trans hcap (by decide))
    rw [unregister_device hart st hbit]
    simp only [unregister_handler, hlk]
    rw [set_enable_device hart _ false hbit]
    simp [hu, hnz]
  · intro h0 hlk
    rw [unregister_device hart st hb0]
    simp [unregister_handler, hlk, set_enable_device hart _ false hb0, u32]
  · intro hlk
    rw [unregister_device hart st hbit]
    simp only [unregister_handler, hlk]

theorem C4_device_register_unregister_witness :
    register 0 ⟨none, none, []⟩ 5 7
      = .ok (true, ⟨none, none, [(5, 7)]⟩,
          [.lockAcquire, .plicSetPriority 5 6, .plicEnable 5 2,
           .lockRelease]) ∧
    unregister 0 ⟨none, none, [(5, 7)]⟩ 5
      = .ok (some 7, ⟨none, none, []⟩,
          [.lockAcquire, .plicDisable 5 2, .lockRelease]) ∧
    register 0 ⟨none, none, [(5, 7)]⟩ 5 9 = .ok (false, ⟨none, none, [(5, 7)]⟩, [.warn]) ∧
    register 0 ⟨none, none, []⟩ 2048 9 = .ok (false, ⟨none, none, []⟩, [.warn]) ∧
    unregister 0 ⟨none, none, []⟩ 5 = .ok (none, ⟨none, none, []⟩, []) :=
  ⟨(C4_device_register_unregister 0 5 7 ⟨none, none, []⟩ (by decide)).1
      rfl (by decide) (by decide),
   (C4_device_register_unregister 0 5 7 ⟨none, none, [(5, 7)]⟩
      (by decide)).2.2.2.2.1 7 rfl (by decide),
   (C4_device_register_unregister 0 5 9 ⟨none, none, [(5, 7)]⟩
      (by decide)).2.2.1 7 rfl,
   (C4_device_register_unregister 0 2048 9 ⟨none, none, []⟩
      (by decide)).2.1 (by decide),
   (C4_device_register_unregister 0 5 9 ⟨none, none, []⟩
      (by decide)).2.2.2.2.2.2 rfl⟩

/-- C6: for every usize cause word with the CPU-interrupt bit set whose
value is none of `S_SOFT`, `S_TIMER`, `S_EXT`, all four classifying
operations abort with the unknown-cause panic; for those three causes, or
any word with the high bit clear, no unknown-cause panic occurs. -/
theorem C6_unknown_cause_aborts (hart c h : Nat) (st : KState) (en : Bool)
    (cr : Option Nat) (_hword : c < 2 ^ 64) :
    (Nat.land c INTC_IRQ_BASE ≠ 0 → c ≠ S_SOFT → c ≠ S_TIMER → c ≠ S_EXT →
      set_enable hart st c en = .error (.unknownCause c) ∧
      register hart st c h = .error (.unknownCause c) ∧
      unregister hart st c = .error (.unknownCause c) ∧
      handle hart cr st c = .error (.unknownCause c)) ∧
    ((c = S_SOFT ∨ c = S_TIMER ∨ c = S_EXT ∨ Nat.land c INTC_IRQ_BASE = 0) →
      isUnknownPanic (set_enable hart st c en) = false ∧
      isUnknownPanic (register hart st c h) = false ∧
      isUnknownPanic (unregister hart st c) = false ∧
      isUnknownPanic (handle hart cr st c) = false) := by
  constructor
  · intro hbit h1 h2 h3
    exact ⟨set_enable_unknown hart st en h2 h1 h3 hbit,
           register_unknown hart st h h2 h1 h3 hbit,
           unregister_unknown hart st h2 h1 h3 hbit,
           handle_unknown hart cr st h2 h1 h3 hbit⟩
  · rintro (rfl | rfl | rfl | hbit)
    · refine ⟨by cases en <;> rfl, ?_, ?_, ?_⟩
      · rw [register_sSoft]
        cases st.ipiHandler <;> rfl
      · rw [unregister_sSoft]
        cases st.ipiHandler <;> rfl
      · rw [handle_sSoft]
        cases st.ipiHandler <;> rfl
    · refine ⟨by cases en <;> rfl, ?_, ?_, ?_⟩
      · rw [register_sTimer]
        cases st.timerHandler <;> rfl
      · rw [unregister_sTimer]
        cases st.timerHandler <;> rfl
      · rw [handle_sTimer]
        cases st.timerHandler <;> rfl
    · refine ⟨rfl, rfl, rfl, ?_⟩
      cases cr
      · rw [handle_sExt_none]
        rfl
      · rw [handle_sExt_some]
        rfl
    · refine ⟨?_, ?_, ?_, ?_⟩
      · rw [set_enable_device hart st en hbit]
        rfl
      · rw [register_device hart st h hbit]
        split
        · rw [set_enable_device hart _ true hbit]
          rfl
        · rfl
      · rw [unregister_device hart st hbit]
        split
        · rw [set_enable_device hart _ false hbit]
          rfl
        · rfl
      · rw [handle_device hart cr st hbit]
        rfl

theorem C6_unknown_cause_aborts_witness :
    register 0 ⟨none, none, []⟩ (INTC_IRQ_BASE + 2) 7
      = .error (.unknownCause (INTC_IRQ_BASE + 2)) ∧
    handle 0 none ⟨none, none, []⟩ (INTC_IRQ_BASE + 2)
      = .error (.unknownCause (INTC_IRQ_BASE + 2)) ∧
    isUnknownPanic (handle 0 none ⟨none, none, []⟩ S_TIMER) = false ∧
    isUnknownPanic (handle 0 none ⟨none, none, []⟩ 0) = false := by
  have hbad := (C6_unknown_cause_aborts 0 (INTC_IRQ_BASE + 2) 7
      ⟨none, none, []⟩ true none (by decide)).1
      (by decide) (by decide) (by decide) (by decide)
  have ht := (C6_unknown_cause_aborts 0 S_TIMER 7 ⟨none, none, []⟩ true none
      (by decide)).2 (Or.inr (Or.inl rfl))
  have h0 := (C6_unknown_cause_aborts 0 0 7 ⟨none, none, []⟩ true none
      (by decide)).2 (Or.inr (Or.inr (Or.inr (by decide))))
  exact ⟨hbad.2.1, hbad.2.2.2, ht.2.2.2, h0.2.2.2⟩

/-- C7 helper: the send loop issues exactly one single-bit send per
non-current hart index, in order, regardless of which sends fail. -/
lemma sendLoop_filter (fail : Nat → Bool) (cpu_id : Nat) (l : List Nat) :
    (sendLoopEvents fail cpu_id l).filter isSendEv
      = (l.filter (fun i => i != cpu_id)).map
          (fun i => Event.sbiSendIpi (1 <<< i) 0) := by
  induction l with
  | nil => rfl
  | cons i rest ih =>
    by_cases hi : i = cpu_id
    · subst hi
      simp [sendLoopEvents, ih]
    · cases hf : fail i <;>
        simp [sendLoopEvents, hi, hf, ih, isSendEv]

/-- C7: `send_ipi` to all-except-current issues exactly one single-bit
hart-mask firmware send for each hart index in `[0, cpu_num)` other than
`cpu_id` and none for `cpu_id`, independently of which sends fail (failures
only add warning log events and never stop the loop); concretely, with
`cpu_num = 4`, `cpu_id = 1`, sends go to harts 0, 2, 3 only. -/
theorem C7_send_ipi_all_except_current (cpu_id cpu_num : Nat)
    (fail : Nat → Bool) :
    (send_ipi fail 0 (.allExceptCurrent cpu_id cpu_num)).filter isSendEv
      = ((List.range cpu_num).filter (fun i => i != cpu_id)).map
          (fun i => Event.sbiSendIpi (1 <<< i) 0) ∧
    send_ipi (fun _ => false) 0 (.allExceptCurrent 1 4)
      = [.sbiSendIpi 1 0, .sbiSendIpi 4 0, .sbiSendIpi 8 0] ∧
    send_ipi (fun _ => true) 0 (.allExceptCurrent 1 4)
      = [.sbiSendIpi 1 0, .warn, .sbiSendIpi 4 0, .warn,
         .sbiSendIpi 8 0, .warn] :=
  ⟨sendLoop_filter fail cpu_id (List.range cpu_num), by decide, by decide⟩

end AxPlat
